import Mathlib

/-!
Verification development for the signac crawler/export core
(`src/signac/contrib/__init__.py`, `src/signac/contrib/job.py`,
`src/signac/contrib/errors.py`).

The Python code is shallowly embedded: dictionaries become insertion-ordered
association lists, generators become a pair of the list of yielded items and
an optional exception that terminated the iteration, and fallible operations
return `Except`.  Definitions follow the source line by line; the two pieces
of repository code that are not shipped under `src/` (the hashing module and
the `walkdepth` utility) are modelled from the specification and marked as
such in their doc comments.

JSON values are modelled to nesting depth two: scalars, and flat
arrays/objects of scalars.  Every statepoint manifest, job document and
crawl record exercised by the claims is flat, so this captures the data the
embedded operations actually see while keeping every definition structurally
recursive (hence evaluable by `decide`/`rfl`).
-/

namespace Signac

/-- Python exceptions that the embedded code can raise. -/
inductive PyError where
  | typeError
  | valueError
  | assertionError
  | stopIteration
  | keyError (msg : String)
  | ioError (msg : String)
  /-- `JobsCorruptedError` from `src/signac/contrib/errors.py`: carries the
  job id(s) of the corrupted job(s), hence batchable. -/
  | jobsCorrupted (ids : List String)
  deriving DecidableEq, Repr

/-- Scalar Python values: results of `json.loads` leaves, regex captures and
the opportunistic `int`/`float` coercion.  Floating point numbers are
represented by the literal text that produced them; the claims only ever
observe which constructor a value has. -/
inductive PyScalar where
  | vnone
  | vbool (b : Bool)
  | vint (n : Int)
  | vfloatLit (s : String)
  | vstr (s : String)
  deriving DecidableEq, Repr

/-- Python values stored in documents: a scalar, a flat list of scalars, or
a flat string-keyed mapping of scalars. -/
inductive PyVal where
  | sc (s : PyScalar)
  | vlist (l : List PyScalar)
  | vdict (l : List (String × PyScalar))
  deriving DecidableEq, Repr

/-- Shorthand for string values. -/
def vstr (s : String) : PyVal := .sc (.vstr s)

/-- A Python `dict` with string keys, as an insertion-ordered association
list with unique keys maintained by the operations below. -/
abbrev Doc := List (String × PyVal)

/-- Generic association-list lookup (Python `d[k]` / `d.get(k)`). -/
def alookup {α : Type} : List (String × α) → String → Option α
  | [], _ => none
  | (k0, v0) :: rest, k => if k0 = k then some v0 else alookup rest k

/-- Python `d[k] = v`: replaces the value in place if the key is present,
otherwise appends the new binding (dicts preserve insertion order). -/
def dinsert : Doc → String → PyVal → Doc
  | [], k, v => [(k, v)]
  | (k0, v0) :: rest, k, v =>
      if k0 = k then (k0, v) :: rest else (k0, v0) :: dinsert rest k v

/-- Python `d.setdefault(k, v)`, returning the resulting dict. -/
def dsetdefault (d : Doc) (k : String) (v : PyVal) : Doc :=
  match alookup d k with
  | some _ => d
  | none => d ++ [(k, v)]

/-- Python `d.setdefault(k, v)`, returning the value together with the
resulting dict. -/
def dsetdefaultGet (d : Doc) (k : String) (v : PyVal) : PyVal × Doc :=
  match alookup d k with
  | some w => (w, d)
  | none => (v, d ++ [(k, v)])

/-- Python `d.update(other)` for a dict argument: inserts the entries of
`other` in order. -/
def dupdate (d : Doc) (other : List (String × PyVal)) : Doc :=
  other.foldl (fun acc kv => dinsert acc kv.1 kv.2) d

/-- View a parsed JSON object as a Python dict of document values. -/
def docOfJson (l : List (String × PyScalar)) : Doc :=
  l.map (fun kv => (kv.1, PyVal.sc kv.2))

/-! ### Python numeric string parsing

Models `int(s)` and `float(s)` on strings, as used by
`RegexFileCrawler.process`.  ASCII digits and the usual whitespace set;
the underscore digit separators of newer Python are not modelled (no claim
depends on them). -/

def isPySpace (c : Char) : Bool :=
  c = ' ' || c = '\t' || c = '\n' || c = '\r' || c = '\x0b' || c = '\x0c'

def isAsciiDigit (c : Char) : Bool :=
  48 ≤ c.toNat && c.toNat ≤ 57

/-- Strip leading and trailing Python whitespace. -/
def pyStrip (l : List Char) : List Char :=
  ((l.dropWhile isPySpace).reverse.dropWhile isPySpace).reverse

/-- Nonempty all-digit character list. -/
def digitsNE (l : List Char) : Bool :=
  !l.isEmpty && l.all isAsciiDigit

def natOfDigits (l : List Char) : Nat :=
  l.foldl (fun a c => a * 10 + (c.toNat - 48)) 0

/-- Drop a single leading sign character. -/
def dropSign : List Char → List Char
  | [] => []
  | c :: r => if c = '+' || c = '-' then r else c :: r

/-- Python `int(s)` on a string: `some n` on success, `none` models a
`ValueError`. -/
def pyParseInt (s : String) : Option Int :=
  match pyStrip s.toList with
  | [] => none
  | c :: r =>
      if c = '+' then (if digitsNE r then some (natOfDigits r : Int) else none)
      else if c = '-' then (if digitsNE r then some (-(natOfDigits r : Int)) else none)
      else if digitsNE (c :: r) then some (natOfDigits (c :: r) : Int) else none

/-- Split a list at the first character satisfying `p` (the separator is
dropped). -/
def splitOnFirst (p : Char → Bool) : List Char → Option (List Char × List Char)
  | [] => none
  | c :: r =>
      if p c then some ([], r)
      else
        match splitOnFirst p r with
        | none => none
        | some (a, b) => some (c :: a, b)

/-- Mantissa of a Python float literal: `digits+ [. digits*]` or `. digits+`. -/
def mantOK (l : List Char) : Bool :=
  match splitOnFirst (fun c => c = '.') l with
  | none => digitsNE l
  | some (a, b) =>
      (digitsNE a && b.all isAsciiDigit) || (a.all isAsciiDigit && digitsNE b)

/-- Body of a Python float literal after sign removal: mantissa with an
optional exponent part. -/
def floatBody (l : List Char) : Bool :=
  match splitOnFirst (fun c => c = 'e' || c = 'E') l with
  | none => mantOK l
  | some (m, e) => mantOK m && digitsNE (dropSign e)

/-- Case-insensitive special float names accepted by Python. -/
def floatSpecial (l : List Char) : Bool :=
  let low := l.map Char.toLower
  low = "inf".toList || low = "infinity".toList || low = "nan".toList

/-- Whether Python `float(s)` succeeds on the string `s`. -/
def pyFloatAccepts (s : String) : Bool :=
  let l := dropSign (pyStrip s.toList)
  floatBody l || floatSpecial l

/-- Truncation of a (claims-relevant) float literal towards zero, for
Python `int(x)` applied to a float: sign and the digits before the dot.
Exponent forms never reach this function in the embedded code paths. -/
def floatLitTrunc (s : String) : Int :=
  match pyStrip s.toList with
  | '-' :: r =>
      match splitOnFirst (fun c => c = '.') r with
      | none => -(natOfDigits r : Int)
      | some (a, _) => -(natOfDigits a : Int)
  | '+' :: r =>
      match splitOnFirst (fun c => c = '.') r with
      | none => (natOfDigits r : Int)
      | some (a, _) => (natOfDigits a : Int)
  | r =>
      match splitOnFirst (fun c => c = '.') r with
      | none => (natOfDigits r : Int)
      | some (a, _) => (natOfDigits a : Int)

/-- Python `int(x)` on a scalar: strings must parse as integer literals
(`ValueError` otherwise), floats truncate, booleans widen, `None` raises
`TypeError`. -/
def pyIntScalar : PyScalar → Except PyError Int
  | .vint n => .ok n
  | .vbool b => .ok (if b then 1 else 0)
  | .vfloatLit s => .ok (floatLitTrunc s)
  | .vstr s =>
      match pyParseInt s with
      | some n => .ok n
      | none => .error .valueError
  | .vnone => .error .typeError

/-- Python `int(x)` on a document value: lists and dicts raise `TypeError`. -/
def pyIntCoerce : PyVal → Except PyError Int
  | .sc s => pyIntScalar s
  | .vlist _ => .error .typeError
  | .vdict _ => .error .typeError

/-- Python `float(x)` on a scalar: the result is represented by its literal
text. -/
def pyFloatScalar : PyScalar → Except PyError PyScalar
  | .vint n => .ok (.vfloatLit (toString n))
  | .vbool b => .ok (.vfloatLit (if b then "1" else "0"))
  | .vfloatLit s => .ok (.vfloatLit s)
  | .vstr s =>
      if pyFloatAccepts s then .ok (.vfloatLit s) else .error .valueError
  | .vnone => .error .typeError

/-- Python `float(x)` on a document value. -/
def pyFloatCoerce : PyVal → Except PyError PyVal
  | .sc s => (pyFloatScalar s).map .sc
  | .vlist _ => .error .typeError
  | .vdict _ => .error .typeError

/-! ### Regular expressions

A small regex engine (Brzozowski derivatives) interpreting the patterns the
module uses: concatenations of literals, `.` and `.*`.  `pmatch` is Python
`re.match` (match a prefix anchored at the start), `search` is
`re.search` (match starting at any position). -/

inductive Rgx where
  | emp
  | eps
  | chr (c : Char)
  | anyc
  | alt (a b : Rgx)
  | cat (a b : Rgx)
  | star (a : Rgx)
  deriving DecidableEq

def nullable : Rgx → Bool
  | .emp => false
  | .eps => true
  | .chr _ => false
  | .anyc => false
  | .alt a b => nullable a || nullable b
  | .cat a b => nullable a && nullable b
  | .star _ => true

def deriv : Rgx → Char → Rgx
  | .emp, _ => .emp
  | .eps, _ => .emp
  | .chr c, x => if c = x then .eps else .emp
  | .anyc, _ => .eps
  | .alt a b, x => .alt (deriv a x) (deriv b x)
  | .cat a b, x =>
      if nullable a then .alt (.cat (deriv a x) b) (deriv b x)
      else .cat (deriv a x) b
  | .star a, x => .cat (deriv a x) (.star a)

/-- Some prefix of the list matches the pattern. -/
def pmatchL (r : Rgx) : List Char → Bool
  | [] => nullable r
  | c :: cs => nullable r || pmatchL (deriv r c) cs

/-- Some prefix of some suffix of the list matches the pattern. -/
def searchL (r : Rgx) : List Char → Bool
  | [] => nullable r
  | c :: cs => pmatchL r (c :: cs) || searchL r cs

/-- Python `re.match(r, s)` (as a boolean: did it match). -/
def pmatch (r : Rgx) (s : String) : Bool := pmatchL r s.toList

/-- Python `r.search(s)` (as a boolean: did it match). -/
def search (r : Rgx) (s : String) : Bool := searchL r s.toList

/-- Literal string pattern. -/
def rgxLit (s : String) : Rgx :=
  s.toList.foldr (fun c acc => Rgx.cat (.chr c) acc) .eps

/-- A compiled pattern object as stored in `RegexFileCrawler.definitions`.
`text` is the pattern source; `re.compile` caches compiled patterns by their
source text, so two compilations of the same text yield the same object, and
the `definitions` dict (keyed by the compiled pattern) identifies entries by
`text`.  `captures` models `m.groupdict()` of a successful search. -/
structure RePattern where
  text : String
  rgx : Rgx
  captures : String → List (String × String)

/-! ### Serialization and hashing -/

def joinComma : List String → String
  | [] => ""
  | [s] => s
  | s :: r => s ++ ", " ++ joinComma r

/-- Serialization of a scalar as by `json.dumps` (string escaping is not
modelled; no claim uses strings needing escapes). -/
def dumpScalar : PyScalar → String
  | .vnone => "null"
  | .vbool b => if b then "true" else "false"
  | .vint n => toString n
  | .vfloatLit s => s
  | .vstr s => "\"" ++ s ++ "\""

def dumpVal : PyVal → String
  | .sc s => dumpScalar s
  | .vlist l => "[" ++ joinComma (l.map dumpScalar) ++ "]"
  | .vdict l =>
      "\x7b" ++
        joinComma (l.map (fun kv => "\"" ++ kv.1 ++ "\": " ++ dumpScalar kv.2))
        ++ "\x7d"

def charListLe : List Char → List Char → Bool
  | [], _ => true
  | _ :: _, [] => false
  | a :: as, b :: bs =>
      if a.toNat < b.toNat then true
      else if b.toNat < a.toNat then false
      else charListLe as bs

def keyLe (a b : String) : Bool := charListLe a.toList b.toList

def insertSortedKV {α : Type} (kv : String × α) :
    List (String × α) → List (String × α)
  | [] => [kv]
  | e :: rest => if keyLe kv.1 e.1 then kv :: e :: rest else e :: insertSortedKV kv rest

/-- Stable sort of dict entries by key (`json.dumps(..., sort_keys=True)`). -/
def sortByKey {α : Type} (l : List (String × α)) : List (String × α) :=
  l.foldr insertSortedKV []

/-- Serialization with sorted keys, as `json.dumps(v, sort_keys=True)`. -/
def dumpCanon : PyVal → String
  | .vdict l => dumpVal (.vdict (sortByKey l))
  | v => dumpVal v

/-- Canonical serialization of a document dict (keys sorted at both levels). -/
def dumpDocCanon (d : Doc) : String :=
  "\x7b" ++
    joinComma ((sortByKey d).map (fun kv => "\"" ++ kv.1 ++ "\": " ++ dumpCanon kv.2))
    ++ "\x7d"

def hexChar : Nat → Char
  | 0 => '0' | 1 => '1' | 2 => '2' | 3 => '3' | 4 => '4'
  | 5 => '5' | 6 => '6' | 7 => '7' | 8 => '8' | 9 => '9'
  | 10 => 'a' | 11 => 'b' | 12 => 'c' | 13 => 'd' | 14 => 'e'
  | _ => 'f'

def toHex8 (n : Nat) : String :=
  String.mk [hexChar (n / 268435456 % 16), hexChar (n / 16777216 % 16),
    hexChar (n / 1048576 % 16), hexChar (n / 65536 % 16),
    hexChar (n / 4096 % 16), hexChar (n / 256 % 16),
    hexChar (n / 16 % 16), hexChar (n % 16)]

def hash32 (l : List Char) : Nat :=
  l.foldl (fun a c => (a * 131 + c.toNat) % 4294967296) 5381

/-- A fixed-length hexadecimal digest of a string (stand-in for `md5`,
which is not expressible here; every claim depends only on the digest being
a deterministic pure function of its input rendered in fixed-length hex). -/
def hexDigest (s : String) : String := toHex8 (hash32 s.toList)

/-- Modelled from the spec: `generate_hash_from_spec` lives in the hashing
module (`signac/contrib/hashing.py`), which is not shipped under `src/`.
Per the spec it canonicalizes the parameter mapping by sorting keys,
serializes it, and returns a fixed-length hexadecimal digest, as a pure and
deterministic function. -/
def generate_hash_from_spec (spec : PyVal) : String :=
  hexDigest (dumpCanon spec)

/-- `BaseCrawler.calculate_hash(doc, dirpath, fn)`: digest of the directory
path, the filename and `json.dumps(doc, sort_keys=True)` concatenated (the
source digests them with `md5`, here the stand-in digest). -/
def calculate_hash (doc : Doc) (dirpath fn : String) : String :=
  hexDigest (dirpath ++ fn ++ dumpDocCanon doc)

/-! ### Filesystem model

The directory hierarchies exercised by the claims are one level deep: a
crawl root holding files and job subdirectories.  File contents are stored
at the parsed level: `json v` stands for a file whose bytes decode and parse
to `v`; `textData` for a file whose bytes are not valid JSON; `unreadable`
for a file that cannot be opened or decoded. -/

inductive FileData where
  | json (v : PyVal)
  | textData (s : String)
  | unreadable
  deriving DecidableEq

structure JobDirFS where
  name : String
  files : List (String × FileData)
  deriving DecidableEq

structure RootFS where
  root : String
  rootFiles : List (String × FileData)
  subs : List JobDirFS
  deriving DecidableEq

def pathJoin (a b : String) : String := a ++ "/" ++ b

/-- Python `s.endswith(suf)`. -/
def endsWithS (s suf : String) : Bool := List.isSuffixOf suf.toList s.toList

/-- `os.path.relpath(p, root)` for the paths built here (always of the form
`root/rest`). -/
def relpathS (p root : String) : String :=
  if (root ++ "/").toList.isPrefixOf p.toList then
    String.mk (p.toList.drop (root.toList.length + 1))
  else p

/-- `os.path.abspath(root)`: crawl roots are given as absolute paths. -/
def abspathS (p : String) : String := p

/-- Modelled from the spec: `walkdepth` lives in the utility module
(`signac/utility.py`), which is not shipped under `src/`.  Per the spec the
walk descends the directory tree in breadth order up to `max_depth` levels
(0 = unbounded), yielding every visited directory with its regular files.
For the one-level hierarchies modelled here this is the root directory
followed by its subdirectories; `depth = 1` restricts the walk to the root. -/
def walkdepth (fs : RootFS) (depth : Nat) :
    List (String × List (String × FileData)) :=
  let top := [(fs.root, fs.rootFiles)]
  if depth = 1 then top
  else top ++ fs.subs.map (fun d => (pathJoin fs.root d.name, d.files))

/-- Open and read a file by directory path and name. -/
def fsRead (fs : RootFS) (dirpath fn : String) : Option FileData :=
  if dirpath = fs.root then alookup fs.rootFiles fn
  else
    match fs.subs.find? (fun d => pathJoin fs.root d.name = dirpath) with
    | some d => alookup d.files fn
    | none => none

/-! ### Reserved document keys and well-known filenames
(module constants of `src/signac/contrib/__init__.py`). -/

def KEY_CRAWLER_PATH : String := "signac_access_crawler_root"
def KEY_CRAWLER_MODULE : String := "signac_access_module"
def KEY_CRAWLER_ID : String := "signac_access_crawler_id"
def KEY_PROJECT : String := "project"
def KEY_FILENAME : String := "filename"
def KEY_PATH : String := "root"
def KEY_PAYLOAD : String := "format"
def fnStatepoint : String := "signac_statepoint.json"

/-! ### The pattern-registration store

`RegexFileCrawler`'s class body executes `definitions = dict()`;
`SignacProjectCrawler`'s class body does not introduce its own
`definitions`.  `define` is a classmethod running
`cls.definitions[regex] = format_`: an attribute *lookup* of `definitions`
on `cls` (walking the method resolution order to the owning class) followed
by an in-place item assignment on the dict found there.  `DefState` records
the per-class dict slots. -/

inductive CrawlerClass where
  | regexFileCrawler
  | signacProjectCrawler
  deriving DecidableEq

/-- Registered pattern/format associations: the contents of a `definitions`
dict (`format_` classes are represented by their tag `str(format_)`). -/
abbrev Definitions := List (RePattern × String)

structure DefState where
  /-- `RegexFileCrawler.__dict__['definitions']` — present from the class body. -/
  regexOwn : Definitions
  /-- `SignacProjectCrawler.__dict__.get('definitions')` — absent in the source. -/
  signacOwn : Option Definitions

def initDefState : DefState := { regexOwn := [], signacOwn := none }

/-- Attribute lookup `cls.definitions` along the method resolution order. -/
def lookupDefinitions (st : DefState) : CrawlerClass → Definitions
  | .regexFileCrawler => st.regexOwn
  | .signacProjectCrawler => st.signacOwn.getD st.regexOwn

/-- Dict item assignment `definitions[regex] = format_`: compiled patterns
are identified by their source text (see `RePattern`); assigning to a
present key replaces its value in place. -/
def defInsert : Definitions → RePattern → String → Definitions
  | [], p, f => [(p, f)]
  | (q, g) :: rest, p, f =>
      if q.text = p.text then (q, f) :: rest
      else (q, g) :: defInsert rest p f

/-- `RegexFileCrawler.define(regex, format_)` invoked on class `cls`:
mutates the dict found by attribute lookup. -/
def define (st : DefState) (cls : CrawlerClass) (p : RePattern) (f : String) :
    DefState :=
  match cls with
  | .regexFileCrawler => { st with regexOwn := defInsert st.regexOwn p f }
  | .signacProjectCrawler =>
      match st.signacOwn with
      | some d => { st with signacOwn := some (defInsert d p f) }
      | none => { st with regexOwn := defInsert st.regexOwn p f }

def applyDefines (st : DefState) :
    List (CrawlerClass × RePattern × String) → DefState
  | [] => st
  | (c, p, f) :: rest => applyDefines (define st c p f) rest

/-! ### RegexFileCrawler -/

/-- One step of the coercion loop of `RegexFileCrawler.process`:
`for t in (int, float): try: result[key] = t(value) / except ValueError:
continue / else: break / else: result[key] = value`.  Only `ValueError` is
caught; a `TypeError` (e.g. `int` of a dict) propagates. -/
def coerceOne (v : PyVal) : Except PyError PyVal :=
  match pyIntCoerce v with
  | .ok n => .ok (.sc (.vint n))
  | .error .valueError =>
      match pyFloatCoerce v with
      | .ok w => .ok w
      | .error .valueError => .ok v
      | .error e => .error e
  | .error e => .error e

def regexProcessAux (acc : Doc) : Doc → Except PyError Doc
  | [] => .ok acc
  | (k, v) :: rest =>
      match coerceOne v with
      | .error e => .error e
      | .ok w => regexProcessAux (dinsert acc k w) rest

/-- `RegexFileCrawler.process(doc, dirpath, fn)`: builds a fresh dict with
each value opportunistically coerced, then returns it via
`BaseCrawler.process` (the identity). -/
def regexProcess (d : Doc) : Except PyError Doc := regexProcessAux [] d

/-- View a `groupdict()` as a Python dict of string values. -/
def docOfCaptures (g : List (String × String)) : Doc :=
  g.map (fun kv => (kv.1, vstr kv.2))

/-- `RegexFileCrawler.docs_from_file(dirpath, fn)`: for every registration
whose pattern matches the file's path, process the named captures
(`self.process` is passed in as `processF` to model dynamic dispatch) and
stamp provenance (`filename`, `root`) and the format tag. -/
def regexDocsFromFile (defs : Definitions) (root dirpath fn : String)
    (processF : Doc → Except PyError Doc) : List Doc × Option PyError :=
  match defs with
  | [] => ([], none)
  | (p, fmt) :: rest =>
      if search p.rgx (pathJoin dirpath fn) then
        match processF (docOfCaptures (p.captures (pathJoin dirpath fn))) with
        | .error e => ([], some e)
        | .ok doc0 =>
            let doc1 := dinsert doc0 KEY_FILENAME (vstr (relpathS (pathJoin dirpath fn) root))
            let doc2 := dinsert doc1 KEY_PATH (vstr (abspathS root))
            let doc3 := dinsert doc2 KEY_PAYLOAD (vstr fmt)
            let r := regexDocsFromFile rest root dirpath fn processF
            (doc3 :: r.1, r.2)
      else regexDocsFromFile rest root dirpath fn processF

/-! ### SignacProjectCrawler -/

/-- The pattern `.*signac_job_document\.json` (class attribute `re_jd`). -/
def re_jd : Rgx := .cat (.star .anyc) (rgxLit "signac_job_document.json")

/-- `SignacProjectCrawler.get_statepoint(dirpath)`: open and parse the
manifest, recompute the identity, and `assert dirpath.endswith(signac_id)`.
A failing assert is an `AssertionError`; an unreadable or unparsable file
raises the corresponding I/O or value error. -/
def get_statepoint (fs : RootFS) (dirpath : String) :
    Except PyError (String × PyVal) :=
  match fsRead fs dirpath fnStatepoint with
  | none => .error (.ioError fnStatepoint)
  | some .unreadable => .error (.ioError fnStatepoint)
  | some (.textData _) => .error .valueError
  | some (.json v) =>
      let signacId := generate_hash_from_spec v
      if endsWithS dirpath signacId then .ok (signacId, v)
      else .error .assertionError

/-- `SignacProjectCrawler.process(doc, dirpath, fn)`: enrich the captures
with the statepoint and the identity, then apply the coercion of
`RegexFileCrawler.process`. -/
def signacProcess (fs : RootFS) (dirpath : String) (doc : Doc) :
    Except PyError Doc :=
  match get_statepoint fs dirpath with
  | .error e => .error e
  | .ok (signacId, sp) =>
      match sp with
      | .vdict entries =>
          let d1 := dupdate doc (docOfJson entries)
          let d2 := dinsert d1 "signac_id" (vstr signacId)
          regexProcess d2
      | _ => .error .typeError

/-- The job-document record built by `SignacProjectCrawler.docs_from_file`
for a parsed `signac_job_document.json` payload. -/
def mkJobDocRecord (entries : List (String × PyScalar)) (signacId : String)
    (sp : PyVal) : Doc :=
  let d0 := docOfJson entries
  let d1 := dinsert d0 "_id" (vstr signacId)
  let d2 := dinsert d1 "signac_id" (vstr signacId)
  let d3 := dinsert d2 "statepoint" sp
  dinsert d3 KEY_PAYLOAD (vstr "signac_job_document")

/-- `SignacProjectCrawler.docs_from_file(dirpath, fn)`: the job-document
branch first (guarded by `re.match(re_jd, fn)`), then delegation to
`RegexFileCrawler.docs_from_file` with `self.process` being
`SignacProjectCrawler.process`. -/
def signacDocsFromFile (st : DefState) (fs : RootFS) (root dirpath fn : String) :
    List Doc × Option PyError :=
  let jd : List Doc × Option PyError :=
    if pmatch re_jd fn then
      match fsRead fs dirpath fn with
      | none => ([], some (.ioError fn))
      | some .unreadable => ([], some (.ioError fn))
      | some (.textData _) => ([], some .valueError)
      | some (.json jv) =>
          match get_statepoint fs dirpath with
          | .error e => ([], some e)
          | .ok (signacId, sp) =>
              match jv with
              | .vdict entries => ([mkJobDocRecord entries signacId sp], none)
              | _ => ([], some .typeError)
    else ([], none)
  match jd.2 with
  | some e => (jd.1, some e)
  | none =>
      let r := regexDocsFromFile (lookupDefinitions st .signacProjectCrawler)
        root dirpath fn (signacProcess fs dirpath)
      (jd.1 ++ r.1, r.2)

/-! ### BaseCrawler.crawl

A crawl is a generator; its outcome is the list of `(key, document)` pairs
yielded before termination together with the exception, if any, that ended
the iteration early. -/

/-- The per-document bookkeeping of `BaseCrawler.crawl`: default the
`format` field to `None`, then default `_id` to `calculate_hash` (the hash
argument is computed on the document as it stands after the format
default). -/
def emitDoc (dirpath fn : String) (doc : Doc) : PyVal × Doc :=
  let d1 := dsetdefault doc KEY_PAYLOAD (.sc .vnone)
  dsetdefaultGet d1 "_id" (vstr (calculate_hash d1 dirpath fn))

def crawlDirFiles (dff : String → String → List Doc × Option PyError)
    (dirpath : String) :
    List (String × FileData) → List (PyVal × Doc) × Option PyError
  | [] => ([], none)
  | (fn, _) :: rest =>
      let r := dff dirpath fn
      let pairs := r.1.map (emitDoc dirpath fn)
      match r.2 with
      | some e => (pairs, some e)
      | none =>
          let r2 := crawlDirFiles dff dirpath rest
          (pairs ++ r2.1, r2.2)

def crawlWalk (dff : String → String → List Doc × Option PyError) :
    List (String × List (String × FileData)) →
    List (PyVal × Doc) × Option PyError
  | [] => ([], none)
  | (dp, files) :: rest =>
      let r := crawlDirFiles dff dp files
      match r.2 with
      | some e => (r.1, some e)
      | none =>
          let r2 := crawlWalk dff rest
          (r.1 ++ r2.1, r2.2)

/-- `BaseCrawler.crawl(depth)`, generic over the `docs_from_file` of the
concrete crawler variant. -/
def crawlGeneric (dff : String → String → List Doc × Option PyError)
    (fs : RootFS) (depth : Nat) : List (PyVal × Doc) × Option PyError :=
  crawlWalk dff (walkdepth fs depth)

/-- A crawl of a `RegexFileCrawler` instance rooted at `fs.root`, reading
its registrations through the class-attribute lookup. -/
def crawlRegex (st : DefState) (fs : RootFS) (depth : Nat) :
    List (PyVal × Doc) × Option PyError :=
  crawlGeneric
    (fun dp fn =>
      regexDocsFromFile (lookupDefinitions st .regexFileCrawler) fs.root dp fn
        regexProcess)
    fs depth

/-- A crawl of a `SignacProjectCrawler` instance rooted at `fs.root`. -/
def crawlSignac (st : DefState) (fs : RootFS) (depth : Nat) :
    List (PyVal × Doc) × Option PyError :=
  crawlGeneric (signacDocsFromFile st fs fs.root) fs depth

/-! ### JSONCrawler -/

/-- The class attribute `fn_regex = '.*\.json'` of `JSONCrawler`. -/
def jsonFnRgx : Rgx := .cat (.star .anyc) (rgxLit ".json")

/-- Python `re.match`, modelled with its calling convention: the mandatory
second argument may be missing (`none`), in which case the call raises
`TypeError` before any matching happens. -/
def reMatchCall (r : Rgx) (s : Option String) : Except PyError Bool :=
  match s with
  | none => .error .typeError
  | some str => .ok (pmatch r str)

/-- `JSONCrawler.docs_from_json(doc)`: yields the parsed payload as one
document (an array payload is yielded whole, not element by element). -/
def jsonDocsFromJson (v : PyVal) : List PyVal := [v]

/-- `JSONCrawler.docs_from_file(dirpath, fn)`.  The source guard is
`if re.match(self.fn_regex):` — `re.match` is called with the pattern only,
without the string to match, so the call raises `TypeError` for every file
before anything is read. -/
def jsonDocsFromFile (fs : RootFS) (dirpath fn : String) :
    List Doc × Option PyError :=
  match reMatchCall jsonFnRgx none with
  | .error e => ([], some e)
  | .ok false => ([], none)
  | .ok true =>
      match fsRead fs dirpath fn with
      | none => ([], some (.ioError fn))
      | some .unreadable => ([], some (.ioError fn))
      | some (.textData _) => ([], some .valueError)
      | some (.json v) =>
          let docs := (jsonDocsFromJson v).map (fun w =>
            match w with
            | .vdict entries => docOfJson entries
            | _ => [])
          (docs, none)

/-! ### Delegation: the module-level `fetch` -/

/-- Raw payload handles yielded by a sub-crawler's `fetch`. -/
abbrev Payload := String

/-- A sub-crawler as returned by an access descriptor's `get_crawlers`:
only its `fetch` generator matters here. -/
structure SubCrawler where
  fetchRaw : Doc → List Payload × Option PyError

/-- A loaded access-descriptor module. -/
structure AccessModule where
  get_crawlers : String → Except PyError (List (String × SubCrawler))

def crawlerNotFoundMsg : String :=
  "Unable to load crawler, associated with this document."

/-- Python `doc[k]` expecting a string value. -/
def getStrField (doc : Doc) (k : String) : Except PyError String :=
  match alookup doc k with
  | some (.sc (.vstr s)) => .ok s
  | some _ => .error .typeError
  | none => .error (.keyError k)

/-- The body of the `try:` block of `fetch`: load the descriptor module,
ask it for its crawlers, index them by the document's recorded sub-crawler
id, and delegate to that sub-crawler's `fetch`. -/
def fetchBody (load : String → Except PyError AccessModule) (doc : Doc)
    (p m : String) : List Payload × Option PyError :=
  match load (pathJoin p m) with
  | .error e => ([], some e)
  | .ok md =>
      match md.get_crawlers p with
      | .error e => ([], some e)
      | .ok crawlers =>
          match getStrField doc KEY_CRAWLER_ID with
          | .error e => ([], some e)
          | .ok cid =>
              match alookup crawlers cid with
              | none => ([], some (.keyError cid))
              | some sub => sub.fetchRaw doc
  /- the `except KeyError:` handler wraps this whole body, including the
  delegated `yield from` -/

def convertKeyErrors (r : List Payload × Option PyError) :
    List Payload × Option PyError :=
  match r.2 with
  | some (.keyError _) => (r.1, some (.keyError crawlerNotFoundMsg))
  | _ => r

/-- The module-level `fetch(doc)` generator: the descriptor path is joined
outside the `try:`; everything else, including iteration of the delegated
sub-crawler's `fetch`, runs inside `try: ... except KeyError:` which
re-raises any `KeyError` as the crawler-not-found `KeyError`. -/
def fetch (load : String → Except PyError AccessModule) (doc : Doc) :
    List Payload × Option PyError :=
  match getStrField doc KEY_CRAWLER_PATH, getStrField doc KEY_CRAWLER_MODULE with
  | .ok p, .ok m => convertKeyErrors (fetchBody load doc p m)
  | .error e, _ => ([], some e)
  | _, .error e => ([], some e)

/-! ### export_pymongo -/

/-- A `pymongo.ReplaceOne({'_id': _id}, doc, upsert=True)` operation. -/
structure ReplaceOp where
  filterId : PyVal
  doc : Doc
  deriving DecidableEq

/-- The `for` loop of `export_pymongo`: accumulate one `ReplaceOne` per
crawled pair (after `assert doc['_id'] == _id`), flushing a bulk write and
clearing the buffer whenever the buffer reaches `chunksize`.  Returns the
flushed batches, the buffer still pending, and the exception (if any) that
left the loop. -/
def exportLoop (cs : Nat) (ops : List ReplaceOp) :
    List (PyVal × Doc) → List (List ReplaceOp) × List ReplaceOp × Option PyError
  | [] => ([], ops, none)
  | (idv, doc) :: rest =>
      match alookup doc "_id" with
      | none => ([], ops, some (.keyError "_id"))
      | some w =>
          if w = idv then
            let ops1 := ops ++ [⟨idv, doc⟩]
            if cs ≤ ops1.length then
              let r := exportLoop cs [] rest
              (ops1 :: r.1, r.2.1, r.2.2)
            else exportLoop cs ops1 rest
          else ([], ops, some .assertionError)

/-- `export_pymongo(crawler, collection, chunksize)`, applied to the
outcome of `crawler.crawl(...)`.  Returns the sequence of `bulk_write`
batches that were issued and the exception propagated, if any.  The final
`if len(operations): collection.bulk_write(operations)` runs only when the
`for` loop completes without an exception — there is no `try`/`finally`. -/
def export_pymongo (crawlRes : List (PyVal × Doc) × Option PyError)
    (cs : Nat) : List (List ReplaceOp) × Option PyError :=
  let r := exportLoop cs [] crawlRes.1
  match r.2.2 with
  | some e => (r.1, some e)
  | none =>
      match crawlRes.2 with
      | some e => (r.1, some e)
      | none => if r.2.1.isEmpty then (r.1, none) else (r.1 ++ [r.2.1], none)

/-! ### Job._create_directory -/

/-- How the `file.write(blob)` call behaves: complete, or failing midway
after `k` characters reached the file (an `IOError` with an errno other
than `EEXIST`). -/
inductive WriteOutcome where
  | full
  | failAfter (k : Nat)
  deriving DecidableEq

/-- `Job._create_directory(overwrite)`, acting on the manifest file of the
job's workspace directory (`manifest` is its current content, if present).
`dumpResult` is the outcome of `json.dumps(self.statepoint(), indent=2)`.
Returns the resulting manifest state and the exception raised, if any.

Source structure: the blob is serialized first; the manifest is opened with
mode `'x'` (create-exclusive) unless `overwrite`, an `IOError` with errno
`EEXIST` being swallowed; on any other exception the outer handler attempts
`os.remove(fn_manifest)` and re-raises. -/
def _create_directory (overwrite : Bool) (dumpResult : Except PyError String)
    (w : WriteOutcome) (manifest : Option String) :
    Option String × Option PyError :=
  match dumpResult with
  | .error e => (none, some e)
  | .ok blob =>
      if !overwrite && manifest.isSome then (manifest, none)
      else
        match w with
        | .full => (some blob, none)
        | .failAfter _ => (none, some (.ioError "write"))

/-! ### SimpleCollection -/

/-- The in-memory sink: `_index`, a dict keyed by `_id`. -/
structure SimpleCollection where
  index : List (PyVal × Doc)

/-- A Python object handed to `next`: a `dict_values` view (iterable but
not an iterator) or a proper iterator. -/
inductive PyIter where
  | valuesView (l : List Doc)
  | listIterator (l : List Doc)

/-- Python `next(x)`: raises `TypeError` when `x` is not an iterator. -/
def pyNext : PyIter → Except PyError Doc
  | .valuesView _ => .error .typeError
  | .listIterator [] => .error .stopIteration
  | .listIterator (d :: _) => .ok d

/-- `SimpleCollection.find_one(self)`: `next(self._index.values())` —
`dict.values()` returns a view, not an iterator. -/
def find_one (c : SimpleCollection) : Except PyError Doc :=
  pyNext (.valuesView (c.index.map Prod.snd))

/-! ## Helper lemmas about dict operations -/

theorem alookup_dinsert_self (d : Doc) (k : String) (v : PyVal) :
    alookup (dinsert d k v) k = some v := by
  induction d with
  | nil => simp [dinsert, alookup]
  | cons e rest ih =>
      rcases e with ⟨k0, v0⟩
      by_cases h : k0 = k
      · subst h; simp [dinsert, alookup]
      · simp [dinsert, alookup, h, ih]

theorem alookup_dinsert_other (d : Doc) (k : String) (v : PyVal) (k2 : String)
    (h : k ≠ k2) : alookup (dinsert d k v) k2 = alookup d k2 := by
  induction d with
  | nil => simp [dinsert, alookup, h]
  | cons e rest ih =>
      rcases e with ⟨k0, v0⟩
      by_cases h0 : k0 = k
      · subst h0; simp [dinsert, alookup, h]
      · simp [dinsert, alookup, h0, ih]

theorem alookup_append_some (a b : Doc) (k : String) (w : PyVal)
    (h : alookup a k = some w) : alookup (a ++ b) k = some w := by
  induction a with
  | nil => simp [alookup] at h
  | cons e rest ih =>
      rcases e with ⟨k0, v0⟩
      by_cases h0 : k0 = k
      · subst h0; simp [alookup] at h ⊢; exact h
      · simp [alookup, h0] at h ⊢; exact ih h

theorem alookup_append_none (a b : Doc) (k : String)
    (h : alookup a k = none) : alookup (a ++ b) k = alookup b k := by
  induction a with
  | nil => simp [alookup]
  | cons e rest ih =>
      rcases e with ⟨k0, v0⟩
      by_cases h0 : k0 = k
      · subst h0; simp [alookup] at h
      · simp [alookup, h0] at h ⊢; exact ih h

theorem alookup_dsetdefault_isSome (d : Doc) (k : String) (v : PyVal) :
    (alookup (dsetdefault d k v) k).isSome = true := by
  unfold dsetdefault
  cases h : alookup d k with
  | some w => simp [h]
  | none =>
      rw [alookup_append_none d _ k h]
      simp [alookup]

theorem alookup_dsetdefault_pres (d : Doc) (k : String) (v : PyVal)
    (k2 : String) (h : (alookup d k2).isSome = true) :
    (alookup (dsetdefault d k v) k2).isSome = true := by
  unfold dsetdefault
  cases h0 : alookup d k with
  | some w => simpa [h0] using h
  | none =>
      cases h2 : alookup d k2 with
      | none => rw [h2] at h; simp at h
      | some w2 => rw [alookup_append_some d _ k2 w2 h2]; rfl

theorem emitDoc_reserved_fields (dp fn : String) (doc : Doc) :
    (alookup (emitDoc dp fn doc).2 "_id").isSome = true ∧
    (alookup (emitDoc dp fn doc).2 KEY_PAYLOAD).isSome = true := by
  unfold emitDoc dsetdefaultGet
  cases h : alookup (dsetdefault doc KEY_PAYLOAD (.sc .vnone)) "_id" with
  | some w => simp [h, alookup_dsetdefault_isSome]
  | none =>
      constructor
      · simp only [h]
        rw [alookup_append_none _ _ "_id" h]
        simp [alookup]
      · simp only [h]
        cases h3 : alookup (dsetdefault doc KEY_PAYLOAD (.sc .vnone)) KEY_PAYLOAD with
        | none =>
            have h2 := alookup_dsetdefault_isSome doc KEY_PAYLOAD (.sc .vnone)
            rw [h3] at h2; simp at h2
        | some w =>
            rw [alookup_append_some _ _ KEY_PAYLOAD w h3]; rfl

/-- Every pair yielded by `crawlDirFiles` is produced by `emitDoc`. -/
theorem crawlDirFiles_shape {dff : String → String → List Doc × Option PyError}
    {dp : String} {files : List (String × FileData)} {pr : PyVal × Doc}
    (h : pr ∈ (crawlDirFiles dff dp files).1) :
    ∃ fn doc, pr = emitDoc dp fn doc := by
  induction files with
  | nil => simp [crawlDirFiles] at h
  | cons f rest ih =>
      rcases f with ⟨fn, fd⟩
      rw [crawlDirFiles] at h
      cases h2 : (dff dp fn).2 with
      | some e =>
          simp only [h2] at h
          rcases List.mem_map.mp h with ⟨doc, _, hd⟩
          exact ⟨fn, doc, hd.symm⟩
      | none =>
          simp only [h2] at h
          rcases List.mem_append.mp h with hl | hr
          · rcases List.mem_map.mp hl with ⟨doc, _, hd⟩
            exact ⟨fn, doc, hd.symm⟩
          · exact ih hr

/-- Every pair yielded by a crawl is produced by `emitDoc`. -/
theorem crawlWalk_shape {dff : String → String → List Doc × Option PyError}
    {walk : List (String × List (String × FileData))} {pr : PyVal × Doc}
    (h : pr ∈ (crawlWalk dff walk).1) :
    ∃ dp fn doc, pr = emitDoc dp fn doc := by
  induction walk with
  | nil => simp [crawlWalk] at h
  | cons e rest ih =>
      rcases e with ⟨dp, files⟩
      rw [crawlWalk] at h
      cases h2 : (crawlDirFiles dff dp files).2 with
      | some err =>
          simp only [h2] at h
          rcases crawlDirFiles_shape h with ⟨fn, doc, hd⟩
          exact ⟨dp, fn, doc, hd⟩
      | none =>
          simp only [h2] at h
          rcases List.mem_append.mp h with hl | hr
          · rcases crawlDirFiles_shape hl with ⟨fn, doc, hd⟩
            exact ⟨dp, fn, doc, hd⟩
          · exact ih hr

/-! ## Claim C10 -/

/-- C10: for every state of the in-memory collection sink, including
non-empty states, `find_one` raises `TypeError` (it applies `next()` to a
`dict_values` view, which is not an iterator), so `find_one` never returns
a stored document. -/
theorem c10_find_one_always_type_error (c : SimpleCollection) :
    find_one c = .error .typeError ∧ ∀ d : Doc, find_one c ≠ .ok d := by
  refine ⟨rfl, ?_⟩
  intro d h
  exact Except.noConfusion h

/-! ## Claim C7 -/

/-- C7 (code bug): `JSONCrawler.docs_from_file` raises `TypeError` for
every file — the guard `if re.match(self.fn_regex):` calls `re.match`
without the string to match — so no file is ever parsed or yielded.
Moreover `docs_from_json` yields a parsed payload as a single document, so
even with the evident fix an array payload would be yielded whole, not
element by element. -/
theorem c7_json_crawler_always_raises (fs : RootFS) (dirpath fn : String) :
    jsonDocsFromFile fs dirpath fn = ([], some .typeError) ∧
    ∀ v : PyVal, jsonDocsFromJson v = [v] := by
  exact ⟨rfl, fun v => rfl⟩

/-! ## Claim C4 -/

/-- C4: writing the manifest without an explicit overwrite request is
create-exclusive — a pre-existing manifest is left intact (the `EEXIST`
error of mode `'x'` is swallowed) — and a write failing midway is cleaned
up by the outer handler's `os.remove`, so no partial manifest remains.
`blob` is the serialized statepoint: for every job the statepoint was
already serialized by the identity computation in `Job.__init__`, so the
`json.dumps` step succeeds. -/
theorem c4_manifest_exclusive_and_clean (blob : String) (w : WriteOutcome)
    (mf : Option String) :
    (∀ c : String, mf = some c →
       _create_directory false (.ok blob) w mf = (some c, none)) ∧
    _create_directory false (.ok blob) .full none = (some blob, none) ∧
    (∀ k : Nat,
       _create_directory false (.ok blob) (.failAfter k) none =
         (none, some (.ioError "write"))) := by
  refine ⟨?_, rfl, fun k => rfl⟩
  intro c hc
  subst hc
  rfl

/-- Witness for C4 at concrete inputs. -/
theorem c4_manifest_exclusive_and_clean_witness :
    _create_directory false (.ok "blob") .full (some "old") = (some "old", none) ∧
    _create_directory false (.ok "blob") .full none = (some "blob", none) ∧
    _create_directory false (.ok "blob") (.failAfter 2) none =
      (none, some (.ioError "write")) := by
  have h := c4_manifest_exclusive_and_clean "blob" .full (some "old")
  exact ⟨h.1 "old" rfl, h.2.1, h.2.2 2⟩

/-! ## Claim C5 -/

def spC5 : PyVal := .vdict [("b", .vint 2)]

/-- A crawl root holding one well-formed job directory (directory name
equal to the identity of its manifest) that also carries a job document. -/
def fsC5 : RootFS :=
  ⟨"proj", [],
    [⟨generate_hash_from_spec spC5,
      [(fnStatepoint, .json spC5),
       ("signac_job_document.json", .json (.vdict []))]⟩]⟩

/-- C5 counterexample: the project crawler's job-document record has `_id`
and `format`, but neither `filename` nor `root` — not all four reserved
fields are present in every yielded document. -/
theorem c5_counterexample :
    (crawlSignac initDefState fsC5 0).2 = none ∧
    (crawlSignac initDefState fsC5 0).1.map
      (fun pr => (alookup pr.2 "_id").isSome) = [true] ∧
    (crawlSignac initDefState fsC5 0).1.map
      (fun pr => (alookup pr.2 KEY_PAYLOAD).isSome) = [true] ∧
    (crawlSignac initDefState fsC5 0).1.map
      (fun pr => alookup pr.2 KEY_FILENAME) = [none] ∧
    (crawlSignac initDefState fsC5 0).1.map
      (fun pr => alookup pr.2 KEY_PATH) = [none] :=
  ⟨rfl, rfl, rfl, rfl, rfl⟩

/-- C5 amended: for every crawler variant, every yielded document carries
`_id` and `format` (defaulted by `BaseCrawler.crawl`); `filename` and
`root` are stamped only on the pattern-registration path, and in
particular the project crawler's job-document records lack them whenever
the job-document payload itself did not carry such keys. -/
theorem c5_reserved_fields_amended
    (dff : String → String → List Doc × Option PyError) (fs : RootFS)
    (depth : Nat) :
    (∀ pr ∈ (crawlGeneric dff fs depth).1,
        (alookup pr.2 "_id").isSome = true ∧
        (alookup pr.2 KEY_PAYLOAD).isSome = true) ∧
    (∀ (entries : List (String × PyScalar)) (signacId : String) (sp : PyVal),
        alookup (docOfJson entries) KEY_FILENAME = none →
        alookup (docOfJson entries) KEY_PATH = none →
        alookup (mkJobDocRecord entries signacId sp) KEY_FILENAME = none ∧
        alookup (mkJobDocRecord entries signacId sp) KEY_PATH = none) := by
  constructor
  · intro pr hpr
    rcases crawlWalk_shape hpr with ⟨dp, fn, doc, hd⟩
    subst hd
    exact emitDoc_reserved_fields dp fn doc
  · intro entries signacId sp h1 h2
    unfold mkJobDocRecord
    constructor
    · rw [alookup_dinsert_other _ _ _ _ (by decide),
        alookup_dinsert_other _ _ _ _ (by decide),
        alookup_dinsert_other _ _ _ _ (by decide),
        alookup_dinsert_other _ _ _ _ (by decide)]
      exact h1
    · rw [alookup_dinsert_other _ _ _ _ (by decide),
        alookup_dinsert_other _ _ _ _ (by decide),
        alookup_dinsert_other _ _ _ _ (by decide),
        alookup_dinsert_other _ _ _ _ (by decide)]
      exact h2

/-- The single pair yielded by crawling `fsC5`. -/
def pairC5 : PyVal × Doc := (crawlSignac initDefState fsC5 0).1.headD (vstr "", [])

/-- Witness for C5 at concrete inputs. -/
theorem c5_reserved_fields_amended_witness :
    ((alookup pairC5.2 "_id").isSome = true ∧
     (alookup pairC5.2 KEY_PAYLOAD).isSome = true) ∧
    (alookup (mkJobDocRecord [("x", .vint 1)] "abc" (.vdict [])) KEY_FILENAME
        = none ∧
     alookup (mkJobDocRecord [("x", .vint 1)] "abc" (.vdict [])) KEY_PATH
        = none) := by
  have h := c5_reserved_fields_amended
    (signacDocsFromFile initDefState fsC5 fsC5.root) fsC5 0
  exact ⟨h.1 pairC5 (by decide),
    h.2 [("x", .vint 1)] "abc" (.vdict []) (by rfl) (by rfl)⟩

/-! ## Claim C6 -/

theorem splitOnFirst_none_of_all {p : Char → Bool} {l : List Char}
    (h : ∀ c ∈ l, p c = false) : splitOnFirst p l = none := by
  induction l with
  | nil => rfl
  | cons c r ih =>
      simp [splitOnFirst, h c (by simp),
        ih (fun x hx => h x (by simp [hx]))]

theorem digit_ne_chars {c : Char} (h : isAsciiDigit c = true) :
    c ≠ '.' ∧ c ≠ 'e' ∧ c ≠ 'E' ∧ c ≠ '+' ∧ c ≠ '-' := by
  refine ⟨fun he => ?_, fun he => ?_, fun he => ?_, fun he => ?_,
    fun he => ?_⟩ <;>
    (subst he; exact absurd h (by decide))

theorem floatBody_of_digits {l : List Char} (h : digitsNE l = true) :
    floatBody l = true := by
  have hall : ∀ c ∈ l, isAsciiDigit c = true := by
    have h2 := (Bool.and_eq_true _ _).mp h
    exact fun c hc => (List.all_eq_true.mp h2.2) c hc
  have hdot : splitOnFirst (fun c => c = '.') l = none :=
    splitOnFirst_none_of_all (fun c hc => by
      have h1 := (digit_ne_chars (hall c hc)).1
      simp [h1])
  have he : splitOnFirst (fun c => c = 'e' || c = 'E') l = none :=
    splitOnFirst_none_of_all (fun c hc => by
      have h1 := (digit_ne_chars (hall c hc)).2.1
      have h2 := (digit_ne_chars (hall c hc)).2.2.1
      simp [h1, h2])
  simp [floatBody, he, mantOK, hdot, h]

theorem dropSign_of_digits {l : List Char} (h : digitsNE l = true) :
    dropSign l = l := by
  cases l with
  | nil => rfl
  | cons c r =>
      have hc : isAsciiDigit c = true := by
        have h2 := (Bool.and_eq_true _ _).mp h
        exact (List.all_eq_true.mp h2.2) c (by simp)
      have h1 := (digit_ne_chars hc).2.2.2.1
      have h2 := (digit_ne_chars hc).2.2.2.2
      simp [dropSign, h1, h2]

/-- A string accepted by Python `int` is also accepted by Python `float`:
the precedence of the coercion loop genuinely decides the result type. -/
theorem pyFloatAccepts_of_parseInt {s : String} {n : Int}
    (h : pyParseInt s = some n) : pyFloatAccepts s = true := by
  unfold pyParseInt at h
  unfold pyFloatAccepts
  cases hl : pyStrip s.toList with
  | nil => rw [hl] at h; simp at h
  | cons c r =>
      rw [hl] at h
      by_cases hp : c = '+'
      · subst hp
        simp only [if_pos rfl] at h
        by_cases hd : digitsNE r
        · have hds : dropSign ('+' :: r) = r := by simp [dropSign]
          rw [hds]
          simp [floatBody_of_digits hd]
        · simp [hd] at h
      · by_cases hm : c = '-'
        · subst hm
          simp only [hp, if_false, if_pos rfl] at h
          by_cases hd : digitsNE r
          · have hds : dropSign ('-' :: r) = r := by simp [dropSign]
            rw [hds]
            simp [floatBody_of_digits hd]
          · simp [hd] at h
        · simp only [hp, hm, if_false] at h
          by_cases hd : digitsNE (c :: r)
          · rw [dropSign_of_digits hd]
            simp [floatBody_of_digits hd]
          · simp [hd] at h

/-- C6: the coercion applied by `RegexFileCrawler.process` to each
captured string tries `int` first and `float` second, keeps the first
conversion that succeeds, and keeps the original string when both fail; a
string parseable as an integer — which `float` would also accept — is
always stored as an integer, never as a float. -/
theorem c6_coercion_precedence (k s : String) :
    (∀ n : Int, pyParseInt s = some n →
        regexProcess [(k, vstr s)] = .ok [(k, .sc (.vint n))] ∧
        pyFloatAccepts s = true) ∧
    (pyParseInt s = none → pyFloatAccepts s = true →
        regexProcess [(k, vstr s)] = .ok [(k, .sc (.vfloatLit s))]) ∧
    (pyParseInt s = none → pyFloatAccepts s = false →
        regexProcess [(k, vstr s)] = .ok [(k, vstr s)]) := by
  refine ⟨?_, ?_, ?_⟩
  · intro n h
    refine ⟨?_, pyFloatAccepts_of_parseInt h⟩
    simp [regexProcess, regexProcessAux, coerceOne, pyIntCoerce, pyIntScalar,
      vstr, h, dinsert]
  · intro h hf
    simp [regexProcess, regexProcessAux, coerceOne, pyIntCoerce, pyIntScalar,
      pyFloatCoerce, pyFloatScalar, vstr, h, hf, dinsert, Except.map]
  · intro h hf
    simp [regexProcess, regexProcessAux, coerceOne, pyIntCoerce, pyIntScalar,
      pyFloatCoerce, pyFloatScalar, vstr, h, hf, dinsert, Except.map]

/-- Witness for C6 at concrete inputs: an integer-looking capture, a
float-looking capture, and a non-numeric capture. -/
theorem c6_coercion_precedence_witness :
    (regexProcess [("a", vstr "42")] = .ok [("a", .sc (.vint 42))] ∧
     pyFloatAccepts "42" = true) ∧
    regexProcess [("b", vstr "4.5")] = .ok [("b", .sc (.vfloatLit "4.5"))] ∧
    regexProcess [("c", vstr "xyz")] = .ok [("c", vstr "xyz")] :=
  ⟨(c6_coercion_precedence "a" "42").1 42 (by rfl),
    (c6_coercion_precedence "b" "4.5").2.1 (by rfl) (by rfl),
    (c6_coercion_precedence "c" "xyz").2.2 (by rfl) (by rfl)⟩

/-! ## Claim C2 -/

/-- The pattern text of both registrations of the scenario. -/
def txtPatternC2 : RePattern :=
  ⟨".*\\.txt", .cat (.star .anyc) (rgxLit ".txt"), fun _ => []⟩

/-- Registering `.*\.txt → Text`, then `.*\.txt → Raw`. -/
def defStateC2 : DefState :=
  define (define initDefState .regexFileCrawler txtPatternC2 "Text")
    .regexFileCrawler txtPatternC2 "Raw"

def fsC2 : RootFS := ⟨"proj", [("a.txt", .textData "hello")], []⟩

/-- C2 counterexample: after the two registrations with the same pattern
text, one crawl of a directory with one matching file yields exactly one
document, tagged with the last-registered format `Raw` — not two
documents, one per format tag. -/
theorem c2_counterexample :
    (crawlRegex defStateC2 fsC2 0).1.length = 1 ∧
    (crawlRegex defStateC2 fsC2 0).1.map (fun pr => alookup pr.2 KEY_PAYLOAD)
      = [some (vstr "Raw")] ∧
    (crawlRegex defStateC2 fsC2 0).2 = none := ⟨rfl, rfl, rfl⟩

/-- The coercion loop never raises on a captured string value. -/
theorem coerceOne_vstr_ok (s : String) : ∃ w, coerceOne (vstr s) = .ok w := by
  unfold coerceOne pyIntCoerce vstr pyIntScalar
  cases h : pyParseInt s with
  | some n => exact ⟨.sc (.vint n), by simp [h]⟩
  | none =>
      cases hf : pyFloatAccepts s with
      | true =>
          exact ⟨.sc (.vfloatLit s),
            by simp [h, pyFloatCoerce, pyFloatScalar, hf, Except.map]⟩
      | false =>
          exact ⟨.sc (.vstr s),
            by simp [h, pyFloatCoerce, pyFloatScalar, hf, Except.map]⟩

/-- `RegexFileCrawler.process` succeeds on every `groupdict`. -/
theorem regexProcessAux_captures_ok (g : List (String × String)) (acc : Doc) :
    ∃ d, regexProcessAux acc (docOfCaptures g) = .ok d := by
  induction g generalizing acc with
  | nil => exact ⟨acc, rfl⟩
  | cons kv rest ih =>
      rcases coerceOne_vstr_ok kv.2 with ⟨w, hw⟩
      simp only [docOfCaptures, List.map_cons, regexProcessAux, hw]
      exact ih (dinsert acc kv.1 w)

/-- C2 amended: the registration store is a dict keyed by the compiled
pattern, and compiling the same pattern text yields the same key, so the
second registration replaces the first; a crawl then yields one document
per matching file, tagged with the most recently registered format. -/
theorem c2_same_pattern_overwrites (d : Definitions) (p : RePattern)
    (f1 f2 : String) (root dp fn : String)
    (h : search p.rgx (pathJoin dp fn) = true) :
    defInsert (defInsert d p f1) p f2 = defInsert d p f2 ∧
    ∃ doc : Doc,
      regexDocsFromFile (defInsert (defInsert [] p f1) p f2) root dp fn
        regexProcess = ([doc], none) ∧
      alookup doc KEY_PAYLOAD = some (vstr f2) := by
  constructor
  · induction d with
    | nil => simp [defInsert]
    | cons e rest ih =>
        rcases e with ⟨q, g⟩
        by_cases hq : q.text = p.text
        · simp [defInsert, hq]
        · simp [defInsert, hq, ih]
  · have hreg : defInsert (defInsert [] p f1) p f2 = [(p, f2)] := by
      simp [defInsert]
    rw [hreg]
    rcases regexProcessAux_captures_ok (p.captures (pathJoin dp fn)) []
      with ⟨d0, hd0⟩
    refine ⟨dinsert (dinsert (dinsert d0 KEY_FILENAME
        (vstr (relpathS (pathJoin dp fn) root))) KEY_PATH
        (vstr (abspathS root))) KEY_PAYLOAD (vstr f2), ?_,
      alookup_dinsert_self _ _ _⟩
    simp [regexDocsFromFile, h, regexProcess, hd0]

/-- Witness for C2 at concrete inputs. -/
theorem c2_same_pattern_overwrites_witness :
    defInsert (defInsert [] txtPatternC2 "Text") txtPatternC2 "Raw" =
      defInsert [] txtPatternC2 "Raw" ∧
    ∃ doc : Doc,
      regexDocsFromFile
        (defInsert (defInsert [] txtPatternC2 "Text") txtPatternC2 "Raw")
        "proj" "proj" "a.txt" regexProcess = ([doc], none) ∧
      alookup doc KEY_PAYLOAD = some (vstr "Raw") :=
  c2_same_pattern_overwrites [] txtPatternC2 "Text" "Raw" "proj" "proj"
    "a.txt" (by rfl)

/-! ## Claim C9 -/

/-- Lookup of a registration's format tag by pattern text. -/
def defLookup : Definitions → String → Option String
  | [], _ => none
  | (q, g) :: rest, t => if q.text = t then some g else defLookup rest t

theorem defLookup_defInsert_self (d : Definitions) (p : RePattern)
    (f : String) : defLookup (defInsert d p f) p.text = some f := by
  induction d with
  | nil => simp [defInsert, defLookup]
  | cons e rest ih =>
      rcases e with ⟨q, g⟩
      by_cases hq : q.text = p.text
      · simp [defInsert, hq, defLookup]
      · simp [defInsert, hq, defLookup, ih]

/-- No execution of the embedded module ever installs an own `definitions`
slot on `SignacProjectCrawler`: its class body has none and `define` only
mutates the dict found by attribute lookup. -/
theorem applyDefines_signacOwn_none
    (calls : List (CrawlerClass × RePattern × String)) (st : DefState)
    (h : st.signacOwn = none) :
    (applyDefines st calls).signacOwn = none := by
  induction calls generalizing st with
  | nil => exact h
  | cons c rest ih =>
      rcases c with ⟨cls, p, f⟩
      apply ih
      cases cls with
      | regexFileCrawler => simpa [define] using h
      | signacProjectCrawler => simp [define, h]

/-- C9: the pattern-registration store is a single class-level dict shared
by `RegexFileCrawler` and `SignacProjectCrawler`: after any sequence of
registrations, a further registration made through either class is made in
the one dict both classes resolve `definitions` to, so both classes see
identical registries and the new pattern/format pair is visible to either
class's `docs_from_file` iteration. -/
theorem c9_shared_definitions
    (calls : List (CrawlerClass × RePattern × String))
    (A B : CrawlerClass) (p : RePattern) (f : String) :
    lookupDefinitions (define (applyDefines initDefState calls) A p f)
        .regexFileCrawler =
      lookupDefinitions (define (applyDefines initDefState calls) A p f)
        .signacProjectCrawler ∧
    defLookup
      (lookupDefinitions (define (applyDefines initDefState calls) A p f) B)
      p.text = some f := by
  have hs : (applyDefines initDefState calls).signacOwn = none :=
    applyDefines_signacOwn_none calls initDefState rfl
  have hd : define (applyDefines initDefState calls) A p f =
      { applyDefines initDefState calls with
        regexOwn := defInsert (applyDefines initDefState calls).regexOwn p f } := by
    cases A with
    | regexFileCrawler => rfl
    | signacProjectCrawler => simp [define, hs]
  rw [hd]
  constructor
  · simp [lookupDefinitions, hs]
  · cases B with
    | regexFileCrawler =>
        simpa [lookupDefinitions] using
          defLookup_defInsert_self (applyDefines initDefState calls).regexOwn p f
    | signacProjectCrawler =>
        simp [lookupDefinitions, hs, defLookup_defInsert_self]

/-! ## Claim C3 -/

/-- The upsert operations an export of `pairs` is supposed to issue. -/
def opsOf (pairs : List (PyVal × Doc)) : List ReplaceOp :=
  pairs.map (fun pr => ⟨pr.1, pr.2⟩)

/-- Loop invariant of `export_pymongo`: when every crawled pair is
consistent (`doc['_id'] == _id`), the loop exits without an exception and
the flushed batches plus the pending buffer account for exactly the
buffered prefix plus one operation per pair. -/
theorem exportLoop_flushes (cs : Nat) (pairs : List (PyVal × Doc)) :
    ∀ ops : List ReplaceOp,
    (∀ pr ∈ pairs, alookup pr.2 "_id" = some pr.1) →
    (exportLoop cs ops pairs).2.2 = none ∧
    (exportLoop cs ops pairs).1.flatten ++ (exportLoop cs ops pairs).2.1 =
      ops ++ opsOf pairs := by
  induction pairs with
  | nil => intro ops hid; simp [exportLoop, opsOf]
  | cons pr rest ih =>
      intro ops hid
      rcases pr with ⟨idv, doc⟩
      have hid0 : alookup doc "_id" = some idv := hid (idv, doc) (by simp)
      have hrest : ∀ q ∈ rest, alookup q.2 "_id" = some q.1 :=
        fun q hq => hid q (by simp [hq])
      simp only [exportLoop, hid0, eq_self_iff_true, if_true]
      by_cases hcs : cs ≤ (ops ++ [(⟨idv, doc⟩ : ReplaceOp)]).length
      · rw [if_pos hcs]
        obtain ⟨ih1, ih2⟩ := ih [] hrest
        refine ⟨ih1, ?_⟩
        simp only [List.flatten_cons, List.append_assoc, ih2]
        simp [opsOf]
      · rw [if_neg hcs]
        obtain ⟨ih1, ih2⟩ := ih (ops ++ [⟨idv, doc⟩]) hrest
        refine ⟨ih1, ?_⟩
        rw [ih2]
        simp [opsOf]

/-- C3 counterexample: a crawl that yields one pair and then raises: with
chunk size 1000 the export issues no bulk write at all — the pending tail
operation is discarded when the exception propagates, though the claim
requires a flush of the tail batch on early termination. -/
theorem c3_counterexample :
    export_pymongo ([(vstr "a", [("_id", vstr "a")])], some .valueError) 1000
      = ([], some .valueError) := rfl

/-- C3 amended: the export flushes a batch whenever the buffer reaches the
chunk size and flushes the tail batch on normal completion of the crawl;
but when the crawl raises, the exception propagates without a final flush
and the operations accumulated since the last flush are lost (there is no
`try`/`finally` around the loop). -/
theorem c3_no_flush_on_exception (pairs : List (PyVal × Doc)) (e : PyError)
    (cs : Nat) (hid : ∀ pr ∈ pairs, alookup pr.2 "_id" = some pr.1) :
    (export_pymongo (pairs, some e) cs).2 = some e ∧
    (export_pymongo (pairs, some e) cs).1 = (exportLoop cs [] pairs).1 ∧
    (export_pymongo (pairs, some e) cs).1.flatten ++
      (exportLoop cs [] pairs).2.1 = opsOf pairs ∧
    (export_pymongo (pairs, none) cs).1.flatten = opsOf pairs ∧
    (export_pymongo (pairs, none) cs).2 = none := by
  obtain ⟨h1, h2⟩ := exportLoop_flushes cs pairs [] hid
  simp only [export_pymongo]
  rw [h1]
  simp only [List.nil_append] at h2
  cases hemp : (exportLoop cs [] pairs).2.1.isEmpty with
  | true =>
      have hnil : (exportLoop cs [] pairs).2.1 = [] :=
        List.isEmpty_iff.mp hemp
      rw [hnil] at h2
      simp only [List.append_nil] at h2
      simp [h2, hnil]
  | false =>
      simp [hemp, h2]

/-- Witness for C3 at concrete inputs. -/
theorem c3_no_flush_on_exception_witness :
    (export_pymongo ([(vstr "b", [("_id", vstr "b")])], some .valueError) 2).2
      = some .valueError ∧
    (export_pymongo ([(vstr "b", [("_id", vstr "b")])], some .valueError) 2).1
      = (exportLoop 2 [] [(vstr "b", [("_id", vstr "b")])]).1 ∧
    (export_pymongo ([(vstr "b", [("_id", vstr "b")])], some .valueError) 2).1.flatten
      ++ (exportLoop 2 [] [(vstr "b", [("_id", vstr "b")])]).2.1
      = opsOf [(vstr "b", [("_id", vstr "b")])] ∧
    (export_pymongo ([(vstr "b", [("_id", vstr "b")])], none) 2).1.flatten
      = opsOf [(vstr "b", [("_id", vstr "b")])] ∧
    (export_pymongo ([(vstr "b", [("_id", vstr "b")])], none) 2).2 = none :=
  c3_no_flush_on_exception [(vstr "b", [("_id", vstr "b")])] .valueError 2
    (by intro pr hpr; simp only [List.mem_singleton] at hpr; subst hpr; rfl)

/-! ## Claim C1 -/

def spBadC1 : PyVal := .vdict [("a", .vint 1)]
def spGoodC1 : PyVal := .vdict [("b", .vint 2)]

/-- A crawl root with a corrupted job directory (its name `badjob` is not
the identity of its manifest) followed by a valid job directory (its name
is exactly the identity of its manifest). -/
def fsC1 : RootFS :=
  ⟨"proj", [],
    [⟨"badjob", [(fnStatepoint, .json spBadC1),
       ("signac_job_document.json", .json (.vdict []))]⟩,
     ⟨generate_hash_from_spec spGoodC1,
       [(fnStatepoint, .json spGoodC1),
        ("signac_job_document.json", .json (.vdict []))]⟩]⟩

/-- C1 counterexample: crawling a root with N = 1 corrupted job directory
followed by one valid job directory yields no documents at all and
terminates with a bare `AssertionError` — not a batched corruption report
with exactly one entry, and the valid job's documents are not yielded. -/
theorem c1_counterexample :
    crawlSignac initDefState fsC1 0 = ([], some .assertionError) := rfl

/-- A statepoint manifest file never matches the job-document branch and,
with no registrations, contributes no documents. -/
theorem signac_statepoint_file_yields_nothing (fs : RootFS) (root dp : String) :
    signacDocsFromFile initDefState fs root dp fnStatepoint = ([], none) := by
  have hm : pmatch re_jd fnStatepoint = false := rfl
  simp [signacDocsFromFile, hm, regexDocsFromFile, lookupDefinitions,
    initDefState]

/-- Processing the job-document file of a directory whose name disagrees
with the manifest identity raises `AssertionError` before yielding. -/
theorem signac_jobdoc_corrupt (st : DefState) (fs : RootFS) (root dp : String)
    (l : List (String × PyScalar)) (sp : PyVal)
    (hrd : fsRead fs dp "signac_job_document.json" = some (.json (.vdict l)))
    (hsp : fsRead fs dp fnStatepoint = some (.json sp))
    (hend : endsWithS dp (generate_hash_from_spec sp) = false) :
    signacDocsFromFile st fs root dp "signac_job_document.json"
      = ([], some .assertionError) := by
  have hm : pmatch re_jd "signac_job_document.json" = true := rfl
  simp [signacDocsFromFile, hm, hrd, get_statepoint, hsp, hend]

/-- C1 amended: a job directory whose name does not equal the identity
recomputed from its manifest makes the crawl fail with a bare
`AssertionError` at the first such directory: no `JobsCorruptedError`
batch is built (the crawler never uses it), and no document — in
particular none from job directories visited later — is yielded. -/
theorem c1_crawl_aborts_on_first_corruption (root n1 n2 : String)
    (sp1 sp2 : PyVal) (l1 l2 : List (String × PyScalar))
    (h1 : endsWithS (pathJoin root n1) (generate_hash_from_spec sp1) = false) :
    crawlSignac initDefState
      ⟨root, [],
        [⟨n1, [(fnStatepoint, .json sp1),
           ("signac_job_document.json", .json (.vdict l1))]⟩,
         ⟨n2, [(fnStatepoint, .json sp2),
           ("signac_job_document.json", .json (.vdict l2))]⟩]⟩ 0
      = ([], some .assertionError) := by
  set fs : RootFS :=
    ⟨root, [],
      [⟨n1, [(fnStatepoint, .json sp1),
         ("signac_job_document.json", .json (.vdict l1))]⟩,
       ⟨n2, [(fnStatepoint, .json sp2),
         ("signac_job_document.json", .json (.vdict l2))]⟩]⟩ with hfs
  have hslash : ("/" : String).length = 1 := rfl
  have hne1 : ¬ (pathJoin root n1 = root) := by
    intro heq
    have hl := congrArg String.length heq
    simp only [pathJoin, String.length_append, hslash] at hl
    omega
  have hrd : fsRead fs (pathJoin root n1) "signac_job_document.json"
      = some (.json (.vdict l1)) := by
    simp [fsRead, hfs, hne1, alookup, fnStatepoint]
  have hsp : fsRead fs (pathJoin root n1) fnStatepoint
      = some (.json sp1) := by
    simp [fsRead, hfs, hne1, alookup, fnStatepoint]
  have hw : walkdepth fs 0 =
      [(root, []),
       (pathJoin root n1, [(fnStatepoint, .json sp1),
          ("signac_job_document.json", .json (.vdict l1))]),
       (pathJoin root n2, [(fnStatepoint, .json sp2),
          ("signac_job_document.json", .json (.vdict l2))])] := by
    simp [walkdepth, hfs]
  have hd1 := signac_statepoint_file_yields_nothing fs root (pathJoin root n1)
  have hd2 := signac_jobdoc_corrupt initDefState fs root (pathJoin root n1)
    l1 sp1 hrd hsp h1
  simp only [crawlSignac, crawlGeneric, hw, crawlWalk, crawlDirFiles, hd1,
    hd2, List.map_nil, List.nil_append, List.append_nil]

/-- Witness for C1 at concrete inputs. -/
theorem c1_crawl_aborts_on_first_corruption_witness :
    crawlSignac initDefState
      ⟨"proj", [],
        [⟨"badjob", [(fnStatepoint, .json (.vdict [("a", .vint 1)])),
           ("signac_job_document.json", .json (.vdict []))]⟩,
         ⟨"otherjob", [(fnStatepoint, .json (.vdict [("c", .vint 3)])),
           ("signac_job_document.json", .json (.vdict []))]⟩]⟩ 0
      = ([], some .assertionError) :=
  c1_crawl_aborts_on_first_corruption "proj" "badjob" "otherjob"
    (.vdict [("a", .vint 1)]) (.vdict [("c", .vint 3)]) [] [] (by rfl)

/-! ## Claim C8 -/

/-- A sub-crawler whose own `fetch` raises a `KeyError` unrelated to the
access descriptor. -/
def subKeyErrC8 : SubCrawler := ⟨fun _ => ([], some (.keyError "boom"))⟩

def moduleC8 : AccessModule := ⟨fun _ => .ok [("c0", subKeyErrC8)]⟩

def loadC8 : String → Except PyError AccessModule := fun _ => .ok moduleC8

/-- A document carrying the full delegation address, pointing at the
sub-crawler id `c0`. -/
def docC8 : Doc :=
  [(KEY_CRAWLER_PATH, vstr "/p"),
   (KEY_CRAWLER_MODULE, vstr "signac_access.py"),
   (KEY_CRAWLER_ID, vstr "c0")]

/-- C8 counterexample: the recorded sub-crawler id `c0` is present in the
reloaded mapping, yet `fetch` reports the crawler-not-found `KeyError`,
because the failure (`KeyError 'boom'`) arose inside the located
sub-crawler's own `fetch` and the handler wraps the whole delegation — the
claimed equivalence fails in the `only if` direction. -/
theorem c8_counterexample :
    fetch loadC8 docC8 = ([], some (.keyError crawlerNotFoundMsg)) ∧
    moduleC8.get_crawlers "/p" = .ok [("c0", subKeyErrC8)] ∧
    (alookup [("c0", subKeyErrC8)] "c0").isSome = true :=
  ⟨rfl, rfl, rfl⟩

/-- C8 amended: for a document carrying the delegation address fields,
`fetch` raises the crawler-not-found `KeyError` when the recorded
sub-crawler id is absent from the reloaded mapping, and also whenever the
located sub-crawler's own `fetch` terminates with any `KeyError` (the
`except KeyError:` wraps the whole delegated iteration); a non-`KeyError`
failure of the sub-crawler propagates unchanged, and a successful
delegation passes its payloads through. -/
theorem c8_crawler_not_found_conditions
    (load : String → Except PyError AccessModule) (doc : Doc)
    (p m cid : String) (crawlers : List (String × SubCrawler))
    (md : AccessModule)
    (hp : alookup doc KEY_CRAWLER_PATH = some (vstr p))
    (hm : alookup doc KEY_CRAWLER_MODULE = some (vstr m))
    (hc : alookup doc KEY_CRAWLER_ID = some (vstr cid))
    (hload : load (pathJoin p m) = .ok md)
    (hg : md.get_crawlers p = .ok crawlers) :
    (alookup crawlers cid = none →
       fetch load doc = ([], some (.keyError crawlerNotFoundMsg))) ∧
    (∀ (sub : SubCrawler) (pl : List Payload) (s : String),
       alookup crawlers cid = some sub →
       sub.fetchRaw doc = (pl, some (.keyError s)) →
       fetch load doc = (pl, some (.keyError crawlerNotFoundMsg))) ∧
    (∀ (sub : SubCrawler) (pl : List Payload) (e : PyError),
       alookup crawlers cid = some sub →
       sub.fetchRaw doc = (pl, some e) →
       (∀ s : String, e ≠ .keyError s) →
       fetch load doc = (pl, some e)) ∧
    (∀ (sub : SubCrawler) (pl : List Payload),
       alookup crawlers cid = some sub →
       sub.fetchRaw doc = (pl, none) →
       fetch load doc = (pl, none)) := by
  have hfetch : fetch load doc = convertKeyErrors (fetchBody load doc p m) := by
    simp [fetch, getStrField, hp, hm, vstr]
  have hbody0 : ∀ r : List Payload × Option PyError,
      (match alookup crawlers cid with
        | none => ([], some (.keyError cid))
        | some sub => sub.fetchRaw doc) = r →
      fetchBody load doc p m = r := by
    intro r hr
    simp [fetchBody, hload, hg, getStrField, hc, vstr]
    exact hr
  refine ⟨?_, ?_, ?_, ?_⟩
  · intro hnone
    rw [hfetch, hbody0 ([], some (.keyError cid)) (by rw [hnone])]
    simp [convertKeyErrors]
  · intro sub pl s hsub hraw
    rw [hfetch, hbody0 (pl, some (.keyError s)) (by rw [hsub]; exact hraw)]
    simp [convertKeyErrors]
  · intro sub pl e hsub hraw hne
    rw [hfetch, hbody0 (pl, some e) (by rw [hsub]; exact hraw)]
    cases e with
    | keyError s => exact absurd rfl (hne s)
    | _ => simp [convertKeyErrors]
  · intro sub pl hsub hraw
    rw [hfetch, hbody0 (pl, none) (by rw [hsub]; exact hraw)]
    simp [convertKeyErrors]

/-- A descriptor whose reloaded mapping no longer holds any sub-crawler. -/
def moduleEmptyC8 : AccessModule := ⟨fun _ => .ok []⟩

def loadEmptyC8 : String → Except PyError AccessModule :=
  fun _ => .ok moduleEmptyC8

/-- Witness for C8 at concrete inputs: descriptor drift (the recorded id
is gone from the reloaded mapping) raises the crawler-not-found error. -/
theorem c8_crawler_not_found_conditions_witness :
    fetch loadEmptyC8 docC8 = ([], some (.keyError crawlerNotFoundMsg)) :=
  (c8_crawler_not_found_conditions loadEmptyC8 docC8 "/p" "signac_access.py"
    "c0" [] moduleEmptyC8 rfl rfl rfl rfl rfl).1 rfl

end Signac
